import Mathlib

/-!
Shallow embedding of the custom action server in
src/RasaChatBot/actions/actions.py.

Conventions of the embedding:
* Python strings are `List Char` (`Str`).  Apostrophes that occur inside
  Python string literals are written as backticks in Lean string literals
  and translated by `pystr`.
* The conversational context handed to a handler (the Rasa tracker) is the
  read-only structure `Tracker`; the dispatcher that collects utterances is
  modelled by making every handler return the messages it uttered together
  with the event list it returns (`ActionResult`).
* Outbound HTTP is modelled by an oracle `Backend : HttpCall → Except ApiError Json`;
  a handler run also records the ordered list of calls it issued, so that
  claims about "no outbound HTTP call" are statements about that trace.
* A Python exception escaping a handler is modelled by `Except PyError` in
  the `result` field of `HandlerOutcome`.  In particular actions.py never
  imports the datetime module, so `ActionReportSymptom.run` raises
  `NameError` when it reaches the payload construction, and
  `ActionExplainPollutant.run` raises `AttributeError` when the latest
  message has no text and entity extraction is empty.
-/

set_option autoImplicit false

abbrev Str := List Char

/-- The apostrophe character. -/
def aposC : Char := Char.ofNat 39

/-- String literal helper: backticks in the Lean literal stand for the
apostrophes of the Python source literal. -/
def pystr (s : String) : Str :=
  s.data.map (fun c => if c == Char.ofNat 96 then aposC else c)

/-- Character-wise lowercasing, modelling Python str.lower on the
characters that actually occur in the disallowed words and pollutant keys. -/
def pyLower (s : Str) : Str := s.map Char.toLower

/-- Python truthiness of an optional string: None and the empty string are
falsy, every other string is truthy. -/
def pyTruthy : Option Str → Bool
  | none => false
  | some s => !s.isEmpty

/-- JSON values as returned by response.json().  Numbers are modelled as
integers; the backends contacted by this bot return integral counts and ids. -/
inductive Json where
  | jnull : Json
  | jbool (b : Bool) : Json
  | jnum (n : Int) : Json
  | jstr (s : Str) : Json
  | jarr (elems : List Json) : Json
  | jobj (fields : List (Str × Json)) : Json

/-- Python exceptions that can escape a handler in actions.py. -/
inductive PyError where
  | nameError (name : Str)
  | attributeError (desc : Str)
  | typeError (desc : Str)
deriving DecidableEq

/-- Python repr() of a JSON value (string escaping inside containers is not
modelled; no verified handler message renders a container). -/
def Json.pyRepr : Json → Str
  | .jnull => pystr "None"
  | .jbool b => if b then pystr "True" else pystr "False"
  | .jnum n => (toString n).data
  | .jstr s => aposC :: (s ++ [aposC])
  | .jarr xs =>
      pystr "[" ++ List.intercalate (pystr ", ")
        (xs.attach.map (fun x => Json.pyRepr x.1)) ++ pystr "]"
  | .jobj fs =>
      pystr "\x7b" ++ List.intercalate (pystr ", ")
        (fs.attach.map (fun kv =>
          (aposC :: (kv.1.1 ++ [aposC])) ++ pystr ": " ++ Json.pyRepr kv.1.2))
        ++ pystr "\x7d"
decreasing_by
  · have h := List.sizeOf_lt_of_mem x.2
    simp only [Json.jarr.sizeOf_spec]
    omega
  · have h := List.sizeOf_lt_of_mem kv.2
    obtain ⟨⟨k, v⟩, hkv⟩ := kv
    simp only [Json.jobj.sizeOf_spec, Prod.mk.sizeOf_spec] at h ⊢
    omega

/-- Python str() of a JSON value, as used in f-string interpolation. -/
def Json.pyStr : Json → Str
  | .jstr s => s
  | j => j.pyRepr

/-- Python truthiness of a JSON value. -/
def Json.truthy : Json → Bool
  | .jnull => false
  | .jbool b => b
  | .jnum n => n != 0
  | .jstr s => !s.isEmpty
  | .jarr xs => !xs.isEmpty
  | .jobj fs => !fs.isEmpty

/-- dict.get(key, default): succeeds on a JSON object, raises
AttributeError on any other value (as calling .get does in Python). -/
def Json.pyGetD (j : Json) (key : Str) (default : Json) : Except PyError Json :=
  match j with
  | .jobj fields => .ok ((List.lookup key fields).getD default)
  | _ => .error (.attributeError (pystr "object has no attribute get"))

/-- A message handed to the collecting dispatcher: either a templated
response reference or literal text. -/
inductive Msg where
  | template (templateName : Str)
  | literal (text : Str)
deriving DecidableEq

/-- Dialogue state mutation events returned by handlers. -/
inductive Event where
  | slotSet (slotName : Str) (value : Option Str)
  | userUtteranceReverted
deriving DecidableEq

/-- What one handler invocation produces: the uttered messages, in order,
and the returned event list. -/
structure ActionResult where
  messages : List Msg
  events : List Event
deriving DecidableEq

inductive HttpMethod where
  | get
  | post
deriving DecidableEq

/-- One outbound HTTP request, identified by method and full URL. -/
structure HttpCall where
  method : HttpMethod
  url : Str
deriving DecidableEq

/-- Failures of the requests library that raise RequestException: transport
errors and the non-2xx statuses surfaced by raise_for_status. -/
inductive ApiError where
  | transport
  | httpStatus (code : Nat)

/-- The backend oracle: what each outbound request would return. -/
abbrev Backend := HttpCall → Except ApiError Json

deriving instance DecidableEq for Except

/-- The observable outcome of running a handler: its result (or the Python
exception that escaped it) plus the trace of outbound HTTP calls it made. -/
structure HandlerOutcome where
  result : Except PyError ActionResult
  calls : List HttpCall
deriving DecidableEq

/-- The read-only conversational context: latest message text, message
metadata, extracted pollutant entities, and the slots the handlers read. -/
structure Tracker where
  latest_text : Option Str
  metadata : Option (List (Str × Str))
  entities_pollutant : List Str
  slot_symptom : Option Str
  slot_report_location : Option Str
  slot_connection_recipient : Option Str
deriving DecidableEq

def BACKEND_URL : Str := pystr "https://envirosense-ai-backend.onrender.com"

/-- get_auth_token: reads the token out of the latest message metadata. -/
def get_auth_token (tracker : Tracker) : Option Str :=
  match tracker.metadata with
  | none => none
  | some m => if m.isEmpty then none else List.lookup (pystr "token") m

def inappropriate_words : List Str :=
  [pystr "badword1", pystr "badword2", pystr "idiot", pystr "stupid"]

/-- contains_inappropriate: any disallowed word is a substring of the
lowercased text. -/
def contains_inappropriate (text : Str) : Bool :=
  inappropriate_words.any (fun word => decide (word <:+: pyLower text))

def POLLUTANT_DB : List (Str × Str) := [
  (pystr "carbon monoxide", pystr "Carbon Monoxide (CO) is a toxic gas produced by incomplete burning of fuels. In high concentrations, it reduces oxygen in the bloodstream."),
  (pystr "co", pystr "Carbon Monoxide (CO) is a toxic gas produced by incomplete burning of fuels. In high concentrations, it reduces oxygen in the bloodstream."),
  (pystr "sulphur dioxide", pystr "Sulphur Dioxide (SO₂) is a gas from burning fossil fuels like coal and oil. It harms the respiratory system and contributes to acid rain."),
  (pystr "so2", pystr "Sulphur Dioxide (SO₂) is a gas from burning fossil fuels like coal and oil. It harms the respiratory system and contributes to acid rain."),
  (pystr "ozone", pystr "Ground-level Ozone (O₃) is a major pollutant created when sunlight reacts with emissions from vehicles and industry. It is a key component of smog."),
  (pystr "o3", pystr "Ground-level Ozone (O₃) is a major pollutant created when sunlight reacts with emissions from vehicles and industry. It is a key component of smog."),
  (pystr "nitrogen dioxide", pystr "Nitrogen Dioxide (NO₂) comes from burning fuel, mainly from vehicles and power plants. It can irritate the respiratory system."),
  (pystr "no2", pystr "Nitrogen Dioxide (NO₂) comes from burning fuel, mainly from vehicles and power plants. It can irritate the respiratory system."),
  (pystr "pm2.5", pystr "PM2.5 are fine inhalable particles that can travel deep into the respiratory tract, reaching the lungs and causing serious health issues."),
  (pystr "pm10", pystr "PM10 are coarse inhalable particles from sources like dust and construction. They can irritate the eyes, nose, and throat.")]

/-- The two-line moderation prologue shared by the content-facing handlers:
if user_message and contains_inappropriate(user_message). -/
def moderationTriggered (tracker : Tracker) : Bool :=
  match tracker.latest_text with
  | none => false
  | some t => !t.isEmpty && contains_inappropriate t

/-- The moderation short-circuit: warning template plus a
UserUtteranceReverted event, before any backend call. -/
def moderationOutcome : HandlerOutcome :=
  ⟨.ok ⟨[.template (pystr "utter_moderation_warning")], [.userUtteranceReverted]⟩, []⟩

/-- action_general_knowledge_fallback: utters the out-of-scope template and
reverts the user utterance; it runs no moderation check and calls no backend. -/
def ActionGeneralKnowledgeFallback.run (_tracker : Tracker) (_backend : Backend) :
    HandlerOutcome :=
  ⟨.ok ⟨[.template (pystr "utter_out_of_scope")], [.userUtteranceReverted]⟩, []⟩

/-- The response loop of action_explain_pollutant: for each queried name,
the description from POLLUTANT_DB or the no-specific-information fallback. -/
def pollutantResponses (pollutants : List Str) : List Str :=
  pollutants.map (fun p =>
    match List.lookup (pyLower p) POLLUTANT_DB with
    | some description => description
    | none => pystr "I don`t have specific information on `" ++ p ++ pystr "`.")

/-- action_explain_pollutant.  When entity extraction is empty it scans the
lowercased message text for known aliases; when the latest message carries
no text that scan evaluates None.lower() and raises AttributeError. -/
def ActionExplainPollutant.run (tracker : Tracker) (_backend : Backend) :
    HandlerOutcome :=
  if moderationTriggered tracker then moderationOutcome
  else
    let pollutants := tracker.entities_pollutant
    if !pollutants.isEmpty then
      ⟨.ok ⟨[.literal (List.intercalate (pystr "\n\n") (pollutantResponses pollutants))],
        []⟩, []⟩
    else
      match tracker.latest_text with
      | none =>
          ⟨.error (.attributeError (pystr "NoneType object has no attribute lower")), []⟩
      | some msg =>
          let text := pyLower msg
          let found_keywords :=
            (POLLUTANT_DB.map Prod.fst).filter (fun p => decide (p <:+: text))
          if !found_keywords.isEmpty then
            ⟨.ok ⟨[.literal (List.intercalate (pystr "\n\n")
              (pollutantResponses found_keywords))], []⟩, []⟩
          else
            ⟨.ok ⟨[.literal (pystr "Which pollutant are you asking about? I know about CO, SO2, Ozone, PM2.5, PM10, etc.")],
              []⟩, []⟩

def ecoPointsCall : HttpCall := ⟨.get, BACKEND_URL ++ pystr "/users/profile"⟩

/-- action_get_eco_points. -/
def ActionGetEcoPoints.run (tracker : Tracker) (backend : Backend) : HandlerOutcome :=
  if moderationTriggered tracker then moderationOutcome
  else if !pyTruthy (get_auth_token tracker) then
    ⟨.ok ⟨[.template (pystr "utter_need_login")], []⟩, []⟩
  else
    match backend ecoPointsCall with
    | .error _ =>
        ⟨.ok ⟨[.literal (pystr "Sorry, I couldn`t fetch your Eco-Points right now.")],
          []⟩, [ecoPointsCall]⟩
    | .ok data =>
        match data.pyGetD (pystr "ecoPoints") (.jnum 0) with
        | .error e => ⟨.error e, [ecoPointsCall]⟩
        | .ok points =>
            ⟨.ok ⟨[.literal (pystr "You currently have " ++ points.pyStr ++
              pystr " Eco-Points!")], []⟩, [ecoPointsCall]⟩

def myReportsCall : HttpCall := ⟨.get, BACKEND_URL ++ pystr "/reports/mine"⟩

/-- One line of the report list of action_get_my_reports. -/
def reportLine (r : Json) : Except PyError Str := do
  let rid ← r.pyGetD (pystr "id") (.jstr (pystr "N/A"))
  let location ← r.pyGetD (pystr "location") (.jobj [])
  let lname ← location.pyGetD (pystr "name") (.jstr (pystr "N/A"))
  return pystr "- Report ID: " ++ rid.pyStr ++ pystr ", Location: " ++ lname.pyStr

/-- action_get_my_reports. -/
def ActionGetMyReports.run (tracker : Tracker) (backend : Backend) : HandlerOutcome :=
  if moderationTriggered tracker then moderationOutcome
  else if !pyTruthy (get_auth_token tracker) then
    ⟨.ok ⟨[.template (pystr "utter_need_login")], []⟩, []⟩
  else
    match backend myReportsCall with
    | .error _ =>
        ⟨.ok ⟨[.literal (pystr "Sorry, I couldn`t fetch your reports right now.")],
          []⟩, [myReportsCall]⟩
    | .ok reports =>
        if reports.truthy then
          match reports with
          | .jarr rs =>
              match (rs.take 5).mapM reportLine with
              | .error e => ⟨.error e, [myReportsCall]⟩
              | .ok lines =>
                  ⟨.ok ⟨[.literal (pystr "Here are your recent reports:\n" ++
                    List.intercalate (pystr "\n") lines)], []⟩, [myReportsCall]⟩
          | _ =>
              -- slicing a truthy non-list JSON body raises in Python
              ⟨.error (.typeError (pystr "object is not sliceable")), [myReportsCall]⟩
        else
          ⟨.ok ⟨[.literal (pystr "You haven`t submitted any reports recently.")],
            []⟩, [myReportsCall]⟩

def dailyMissionCall : HttpCall := ⟨.get, BACKEND_URL ++ pystr "/missions/today"⟩

/-- action_get_daily_mission. -/
def ActionGetDailyMission.run (tracker : Tracker) (backend : Backend) : HandlerOutcome :=
  if moderationTriggered tracker then moderationOutcome
  else if !pyTruthy (get_auth_token tracker) then
    ⟨.ok ⟨[.template (pystr "utter_need_login")], []⟩, []⟩
  else
    match backend dailyMissionCall with
    | .error _ =>
        ⟨.ok ⟨[.literal (pystr "Sorry, I couldn`t fetch your daily mission right now.")],
          []⟩, [dailyMissionCall]⟩
    | .ok mission =>
        match mission.pyGetD (pystr "description") (.jstr (pystr "No mission assigned today.")) with
        | .error e => ⟨.error e, [dailyMissionCall]⟩
        | .ok descr =>
            ⟨.ok ⟨[.literal (pystr "Today`s mission: " ++ descr.pyStr)], []⟩,
              [dailyMissionCall]⟩

def leaderboardCall : HttpCall := ⟨.get, BACKEND_URL ++ pystr "/users/leaderboard"⟩

/-- One line of the leaderboard of action_get_leaderboard_top. -/
def leaderboardLine (iu : Nat × Json) : Except PyError Str := do
  let username ← iu.2.pyGetD (pystr "username") (.jstr (pystr "N/A"))
  let points ← iu.2.pyGetD (pystr "ecoPoints") (.jnum 0)
  return pystr "- " ++ (toString (iu.1 + 1)).data ++ pystr ". " ++ username.pyStr ++
    pystr " (" ++ points.pyStr ++ pystr " points)"

/-- action_get_leaderboard_top: the only data-fetching handler without an
auth gate. -/
def ActionGetLeaderboardTop.run (tracker : Tracker) (backend : Backend) :
    HandlerOutcome :=
  if moderationTriggered tracker then moderationOutcome
  else
    match backend leaderboardCall with
    | .error _ =>
        ⟨.ok ⟨[.literal (pystr "Sorry, I couldn`t fetch the leaderboard right now.")],
          []⟩, [leaderboardCall]⟩
    | .ok leaderboard =>
        if leaderboard.truthy then
          match leaderboard with
          | .jarr us =>
              match ((us.take 3).enum).mapM leaderboardLine with
              | .error e => ⟨.error e, [leaderboardCall]⟩
              | .ok lines =>
                  ⟨.ok ⟨[.literal (pystr "Here are the current top contributors:\n" ++
                    List.intercalate (pystr "\n") lines)], []⟩, [leaderboardCall]⟩
          | _ =>
              -- slicing a truthy non-list JSON body raises in Python
              ⟨.error (.typeError (pystr "object is not sliceable")), [leaderboardCall]⟩
        else
          ⟨.ok ⟨[.literal (pystr "The leaderboard is currently empty.")], []⟩,
            [leaderboardCall]⟩

/-- action_report_symptom.  After the auth and slot guards the source
evaluates datetime.datetime.now() to build the POST payload, but actions.py
never imports datetime, so the interpreter raises NameError there, before
the POST to /health/report is issued. -/
def ActionReportSymptom.run (tracker : Tracker) (_backend : Backend) : HandlerOutcome :=
  if !pyTruthy (get_auth_token tracker) then
    ⟨.ok ⟨[.template (pystr "utter_need_login")], [.slotSet (pystr "symptom") none]⟩, []⟩
  else if !pyTruthy tracker.slot_symptom then
    ⟨.ok ⟨[.literal (pystr "I seem to have missed the symptom. Could you please try reporting it again?")],
      []⟩, []⟩
  else
    ⟨.error (.nameError (pystr "datetime")), []⟩

def createReportCall : HttpCall := ⟨.post, BACKEND_URL ++ pystr "/reports"⟩

/-- action_create_health_report. -/
def ActionCreateHealthReport.run (tracker : Tracker) (backend : Backend) :
    HandlerOutcome :=
  if !pyTruthy (get_auth_token tracker) then
    ⟨.ok ⟨[.template (pystr "utter_need_login")],
      [.slotSet (pystr "report_location") none]⟩, []⟩
  else if !pyTruthy tracker.slot_report_location then
    ⟨.ok ⟨[.literal (pystr "I seem to have missed the location. Could you please try creating the report again?")],
      []⟩, []⟩
  else
    let location := tracker.slot_report_location.getD []
    match backend createReportCall with
    | .error _ =>
        ⟨.ok ⟨[.literal (pystr "Sorry, I couldn`t create the health report for " ++
          location ++ pystr " right now.")],
          [.slotSet (pystr "report_location") none]⟩, [createReportCall]⟩
    | .ok body =>
        match body.pyGetD (pystr "id") (.jstr (pystr "N/A")) with
        | .error e => ⟨.error e, [createReportCall]⟩
        | .ok report_id =>
            ⟨.ok ⟨[.literal (pystr "Okay, I`ve created a new health report (ID: " ++
              report_id.pyStr ++ pystr ") for " ++ location ++
              pystr ". You can add more details on the website.")],
              [.slotSet (pystr "report_location") none]⟩, [createReportCall]⟩

/-- The user-search request of action_send_connection_request. -/
def searchCall (username : Str) : HttpCall :=
  ⟨.get, BACKEND_URL ++ pystr "/users/search?username=" ++ username⟩

/-- The connection-request POST of action_send_connection_request. -/
def connectionRequestCall (recipientId : Str) : HttpCall :=
  ⟨.post, BACKEND_URL ++ pystr "/connections/request/" ++ recipientId⟩

/-- action_send_connection_request: a strictly ordered two-step flow, user
search first, then the connection-request POST. -/
def ActionSendConnectionRequest.run (tracker : Tracker) (backend : Backend) :
    HandlerOutcome :=
  if !pyTruthy (get_auth_token tracker) then
    ⟨.ok ⟨[.template (pystr "utter_need_login")],
      [.slotSet (pystr "connection_recipient") none]⟩, []⟩
  else if !pyTruthy tracker.slot_connection_recipient then
    ⟨.ok ⟨[.literal (pystr "I seem to have missed the username. Who did you want to connect with?")],
      []⟩, []⟩
  else
    let recipient_username := tracker.slot_connection_recipient.getD []
    let sc := searchCall recipient_username
    match backend sc with
    | .error _ =>
        ⟨.ok ⟨[.literal (pystr "Sorry, I couldn`t send the connection request to " ++
          recipient_username ++ pystr " right now.")],
          [.slotSet (pystr "connection_recipient") none]⟩, [sc]⟩
    | .ok users =>
        if !users.truthy then
          ⟨.ok ⟨[.literal (pystr "Sorry, I couldn`t find a user named `" ++
            recipient_username ++ pystr "`. Please check the username.")],
            [.slotSet (pystr "connection_recipient") none]⟩, [sc]⟩
        else
          match users with
          | .jarr (u :: _) =>
              match u.pyGetD (pystr "id") .jnull with
              | .error e => ⟨.error e, [sc]⟩
              | .ok recipient_id =>
                  if !recipient_id.truthy then
                    ⟨.ok ⟨[.literal (pystr "Found the user, but couldn`t get their ID.")],
                      [.slotSet (pystr "connection_recipient") none]⟩, [sc]⟩
                  else
                    let rc := connectionRequestCall recipient_id.pyStr
                    match backend rc with
                    | .error _ =>
                        ⟨.ok ⟨[.literal (pystr "Sorry, I couldn`t send the connection request to " ++
                          recipient_username ++ pystr " right now.")],
                          [.slotSet (pystr "connection_recipient") none]⟩, [sc, rc]⟩
                    | .ok _ =>
                        ⟨.ok ⟨[.literal (pystr "Okay, I`ve sent a connection request to " ++
                          recipient_username ++ pystr ".")],
                          [.slotSet (pystr "connection_recipient") none]⟩, [sc, rc]⟩
          | _ =>
              -- indexing a truthy non-list JSON body raises in Python
              ⟨.error (.typeError (pystr "object is not indexable")), [sc]⟩

/-- action_health_effects: both branches of the token check utter the same
template. -/
def ActionHealthEffects.run (tracker : Tracker) (_backend : Backend) : HandlerOutcome :=
  if moderationTriggered tracker then moderationOutcome
  else if pyTruthy (get_auth_token tracker) then
    ⟨.ok ⟨[.template (pystr "utter_health_effects")], []⟩, []⟩
  else
    ⟨.ok ⟨[.template (pystr "utter_health_effects")], []⟩, []⟩

/-- Python values that can arrive as the raw slot value of a form field. -/
inductive PValue where
  | vstr (s : Str)
  | vnum (n : Int)
  | vnone
  | vlist (elems : List Str)
deriving DecidableEq

/-- The outcome of a field validator: the uttered messages and the returned
symptom field value (none models the Python None that clears the field). -/
structure ValidationOutcome where
  messages : List Msg
  slot_symptom : Option PValue
deriving DecidableEq

/-- ValidateSymptomForm.validate_symptom. -/
def ValidateSymptomForm.validate_symptom (slot_value : PValue) : ValidationOutcome :=
  match slot_value with
  | .vstr s =>
      if s.length > 2 then ⟨[], some (.vstr s)⟩
      else
        ⟨[.literal (pystr "That doesn`t seem like a valid symptom. Please describe it.")], none⟩
  | _ =>
      ⟨[.literal (pystr "That doesn`t seem like a valid symptom. Please describe it.")], none⟩

/-- The handler registry: one identifier per Action class in actions.py. -/
inductive HandlerId where
  | generalKnowledgeFallback
  | explainPollutant
  | getEcoPoints
  | getMyReports
  | getDailyMission
  | getLeaderboardTop
  | reportSymptom
  | createHealthReport
  | sendConnectionRequest
  | healthEffects
deriving DecidableEq

/-- The name() method of each Action class. -/
def handlerName : HandlerId → Str
  | .generalKnowledgeFallback => pystr "action_general_knowledge_fallback"
  | .explainPollutant => pystr "action_explain_pollutant"
  | .getEcoPoints => pystr "action_get_eco_points"
  | .getMyReports => pystr "action_get_my_reports"
  | .getDailyMission => pystr "action_get_daily_mission"
  | .getLeaderboardTop => pystr "action_get_leaderboard_top"
  | .reportSymptom => pystr "action_report_symptom"
  | .createHealthReport => pystr "action_create_health_report"
  | .sendConnectionRequest => pystr "action_send_connection_request"
  | .healthEffects => pystr "action_health_effects"

/-- The dispatcher: run the handler selected by the dialogue engine. -/
def runHandler : HandlerId → Tracker → Backend → HandlerOutcome
  | .generalKnowledgeFallback => ActionGeneralKnowledgeFallback.run
  | .explainPollutant => ActionExplainPollutant.run
  | .getEcoPoints => ActionGetEcoPoints.run
  | .getMyReports => ActionGetMyReports.run
  | .getDailyMission => ActionGetDailyMission.run
  | .getLeaderboardTop => ActionGetLeaderboardTop.run
  | .reportSymptom => ActionReportSymptom.run
  | .createHealthReport => ActionCreateHealthReport.run
  | .sendConnectionRequest => ActionSendConnectionRequest.run
  | .healthEffects => ActionHealthEffects.run

/-- A backend oracle that fails every request at the transport level. -/
def failingBackend : Backend := fun _ => .error .transport

/-- Spec wording (4.2): the word occurs in the text as a case-insensitive
substring, i.e. some occurrence inside the text lowercases to the word. -/
def occursCaseInsensitive (word text : Str) : Prop :=
  ∃ occurrence, occurrence <:+: text ∧ pyLower occurrence = pyLower word

/-- Spec wording (claim C3): the event list contains slot-clearing events
only (every event sets some slot to None). -/
def slotClearingOnly : List Event → Bool
  | [] => true
  | .slotSet _ none :: rest => slotClearingOnly rest
  | _ => false

/-- Spec wording (claim C3): the outcome consists of exactly the needLogin
templated message, only slot-clearing events, and no outbound HTTP call. -/
def needLoginOnly (o : HandlerOutcome) : Bool :=
  match o.result with
  | .ok r =>
      decide (r.messages = [Msg.template (pystr "utter_need_login")]) &&
        slotClearingOnly r.events && o.calls.isEmpty
  | .error _ => false

/-- Context for claim C1: valid token and a non-empty symptom slot. -/
def c1Tracker : Tracker :=
  ⟨some (pystr "i have a cough"), some [(pystr "token", pystr "jwt123")], [],
    some (pystr "cough"), none, none⟩

/-- Context for claim C2: token present, latest message with no text, no
extracted entities. -/
def c2Tracker : Tracker :=
  ⟨none, some [(pystr "token", pystr "jwt123")], [], none, none, none⟩

/-- Context for the C3 counterexample: no token and an inappropriate text. -/
def c3Tracker : Tracker :=
  ⟨some (pystr "you idiot"), none, [], none, none, none⟩

/-- Context for the C3 witness: no token, harmless text. -/
def c3CleanTracker : Tracker :=
  ⟨some (pystr "show my points"), none, [], none, none, none⟩

/-- Context for claim C4: an inappropriate latest text. -/
def c4Tracker : Tracker :=
  ⟨some (pystr "you are an idiot"), none, [], none, none, none⟩

/-- Context for the C4 witness: text containing the word stupid. -/
def c4WTracker : Tracker :=
  ⟨some (pystr "this is stupid"), none, [], none, none, none⟩

/-- Contexts for claim C6. -/
def c6TrackerA : Tracker :=
  ⟨some (pystr "tell me about co"), none, [pystr "co"], none, none, none⟩

def c6TrackerB : Tracker :=
  ⟨some (pystr "what about pm2.5"), none, [], none, none, none⟩

def c6TrackerC : Tracker :=
  ⟨some (pystr "what can you tell me"), none, [], none, none, none⟩

/-- Context and backend for the C5 witness: authenticated, recipient slot
set to alice, search returns an empty array. -/
def c5Tracker : Tracker :=
  ⟨none, some [(pystr "token", pystr "t1")], [], none, none, some (pystr "alice")⟩

def c5Backend : Backend :=
  fun c => if c = searchCall (pystr "alice") then .ok (.jarr []) else .error .transport

/-- Context and backend for the C9 witness: search finds one user object
that carries no id field. -/
def c9Tracker : Tracker :=
  ⟨none, some [(pystr "token", pystr "t1")], [], none, none, some (pystr "bob")⟩

def c9Backend : Backend :=
  fun c => if c = searchCall (pystr "bob") then .ok (.jarr [.jobj []]) else .error .transport

/-- Context and backend for the C10 witness: profile fetch succeeds with an
object that lacks the ecoPoints key. -/
def c10Tracker : Tracker :=
  ⟨none, some [(pystr "token", pystr "t1")], [], none, none, none⟩

def c10Backend : Backend :=
  fun c => if c = ecoPointsCall then .ok (.jobj []) else .error .transport

/-- Claim C1 (code bug): with a present auth token and a non-empty symptom
slot, ActionReportSymptom does not return the slot-clearing event list the
spec promises; it raises NameError, because actions.py uses
datetime.datetime.now() without ever importing datetime. -/
theorem reportSymptom_token_and_slot_raises_nameError :
    runHandler .reportSymptom c1Tracker failingBackend =
      ⟨.error (.nameError (pystr "datetime")), []⟩ := by decide

/-- Claim C2 (code bug): ActionExplainPollutant raises AttributeError when
the latest message has no text and entity extraction is empty, because the
keyword fallback evaluates None.lower(); so not every handler returns a
well-formed ActionResult on every context. -/
theorem explainPollutant_no_text_raises_attributeError :
    runHandler .explainPollutant c2Tracker failingBackend =
      ⟨.error (.attributeError (pystr "NoneType object has no attribute lower")), []⟩ := by
  decide

/-- Claim C6: explainPollutant answers the CO entity query with the Carbon
Monoxide description as its single message, answers the entity-free
pm2.5 text by keyword fallback with the PM2.5 description, and with no
matching alias emits the clarification prompt with an empty event list. -/
theorem explainPollutant_examples :
    runHandler .explainPollutant c6TrackerA failingBackend =
      ⟨.ok ⟨[.literal (pystr "Carbon Monoxide (CO) is a toxic gas produced by incomplete burning of fuels. In high concentrations, it reduces oxygen in the bloodstream.")],
        []⟩, []⟩
    ∧ runHandler .explainPollutant c6TrackerB failingBackend =
      ⟨.ok ⟨[.literal (pystr "PM2.5 are fine inhalable particles that can travel deep into the respiratory tract, reaching the lungs and causing serious health issues.")],
        []⟩, []⟩
    ∧ runHandler .explainPollutant c6TrackerC failingBackend =
      ⟨.ok ⟨[.literal (pystr "Which pollutant are you asking about? I know about CO, SO2, Ozone, PM2.5, PM10, etc.")],
        []⟩, []⟩ := by decide

/-- Counterexample to claim C3 as stated: on a context whose auth token is
absent but whose latest text trips the moderation filter, GetEcoPoints
emits the moderation warning and a revert event, not the needLogin
message with slot-clearing events only. -/
theorem getEcoPoints_no_token_moderation_beats_needLogin :
    get_auth_token c3Tracker = none
    ∧ needLoginOnly (runHandler .getEcoPoints c3Tracker failingBackend) = false
    ∧ runHandler .getEcoPoints c3Tracker failingBackend = moderationOutcome := by decide

/-- Counterexample to claim C4 as stated: GeneralKnowledgeFallback performs
no moderation check; on an inappropriate text it utters the out-of-scope
template, not the moderation warning. -/
theorem fallback_skips_moderation :
    contains_inappropriate (pystr "you are an idiot") = true
    ∧ (runHandler .generalKnowledgeFallback c4Tracker failingBackend).result ≠
        .ok ⟨[.template (pystr "utter_moderation_warning")], [.userUtteranceReverted]⟩
    ∧ runHandler .generalKnowledgeFallback c4Tracker failingBackend =
        ⟨.ok ⟨[.template (pystr "utter_out_of_scope")], [.userUtteranceReverted]⟩, []⟩ := by
  decide

/-- A word is an infix of a mapped list exactly when it is the image of an
infix of the original list. -/
theorem infix_map_iff {f : Char → Char} {w t : Str} :
    w <:+: t.map f ↔ ∃ u, u <:+: t ∧ u.map f = w := by
  constructor
  · rintro ⟨s, r, hsr⟩
    have hsplit : t.map f = s ++ (w ++ r) := by
      rw [← hsr, List.append_assoc]
    obtain ⟨l₁, l₂, ht, hl₁, hl₂⟩ := List.map_eq_append_iff.mp hsplit
    obtain ⟨m₁, m₂, hl, hm₁, hm₂⟩ := List.map_eq_append_iff.mp hl₂
    exact ⟨m₁, ⟨l₁, m₂, by rw [ht, hl, List.append_assoc]⟩, hm₁⟩
  · rintro ⟨u, hu, rfl⟩
    exact hu.map f

/-- Claim C7: contains_inappropriate is true exactly when some entry of the
fixed disallowed-word set occurs as a case-insensitive substring of the
input text. -/
theorem contains_inappropriate_iff (text : Str) :
    contains_inappropriate text = true ↔
      ∃ word ∈ inappropriate_words, occursCaseInsensitive word text := by
  unfold contains_inappropriate
  rw [List.any_eq_true]
  constructor
  · rintro ⟨word, hmem, hdec⟩
    rw [decide_eq_true_iff] at hdec
    obtain ⟨u, hu, humap⟩ := infix_map_iff.mp hdec
    refine ⟨word, hmem, u, hu, ?_⟩
    have hlow : pyLower word = word := by
      fin_cases hmem <;> decide
    rw [pyLower, humap, hlow]
  · rintro ⟨word, hmem, u, hu, heq⟩
    refine ⟨word, hmem, ?_⟩
    rw [decide_eq_true_iff]
    have hlow : pyLower word = word := by
      fin_cases hmem <;> decide
    rw [← hlow, ← heq]
    exact hu.map Char.toLower

/-- Witness for C7 at a concrete input: the uppercased disallowed word
IDIOT inside the text is detected. -/
theorem contains_inappropriate_iff_witness :
    contains_inappropriate (pystr "You are an IDIOT") = true :=
  (contains_inappropriate_iff (pystr "You are an IDIOT")).mpr
    ⟨pystr "idiot", by decide, pystr "IDIOT", by decide, by decide⟩

/-- Claim C8: the symptom validator accepts exactly the string values of
length strictly greater than 2, returning them unchanged; any other value
is rejected with the rejection message and a cleared field. -/
theorem validate_symptom_spec (v : PValue) :
    ((∃ s, v = PValue.vstr s ∧ 2 < s.length) →
      ValidateSymptomForm.validate_symptom v = ⟨[], some v⟩)
    ∧ (¬(∃ s, v = PValue.vstr s ∧ 2 < s.length) →
      ValidateSymptomForm.validate_symptom v =
        ⟨[.literal (pystr "That doesn`t seem like a valid symptom. Please describe it.")],
          none⟩) := by
  constructor
  · rintro ⟨s, rfl, hlen⟩
    simp [ValidateSymptomForm.validate_symptom, hlen]
  · intro hnot
    match v with
    | .vstr s =>
        have hlen : ¬2 < s.length := fun h => hnot ⟨s, rfl, h⟩
        simp [ValidateSymptomForm.validate_symptom, hlen]
    | .vnum n => rfl
    | .vnone => rfl
    | .vlist es => rfl

/-- Witness for C8: the value cough (length 5) is accepted unchanged and
the value ok (length 2) is rejected with the field cleared. -/
theorem validate_symptom_spec_witness :
    ValidateSymptomForm.validate_symptom (.vstr (pystr "cough")) =
      ⟨[], some (.vstr (pystr "cough"))⟩
    ∧ ValidateSymptomForm.validate_symptom (.vstr (pystr "ok")) =
      ⟨[.literal (pystr "That doesn`t seem like a valid symptom. Please describe it.")],
        none⟩ :=
  ⟨(validate_symptom_spec _).1 ⟨_, rfl, by decide⟩,
   (validate_symptom_spec _).2 (fun ⟨s, hs, hlen⟩ => by
     cases hs
     exact absurd hlen (by decide))⟩

/-- Claim C3 (amended): with an absent (falsy) auth token, the three
auth-gated creation flows short-circuit to exactly the needLogin message,
at most slot-clearing events and no HTTP call, unconditionally; the three
moderated GET handlers do the same provided the moderation check has not
already fired on the latest text. -/
theorem needLogin_short_circuit (tracker : Tracker) (backend : Backend)
    (hauth : pyTruthy (get_auth_token tracker) = false) :
    (∀ h ∈ [HandlerId.reportSymptom, .createHealthReport, .sendConnectionRequest],
      needLoginOnly (runHandler h tracker backend) = true)
    ∧ (moderationTriggered tracker = false →
      ∀ h ∈ [HandlerId.getEcoPoints, .getMyReports, .getDailyMission],
        needLoginOnly (runHandler h tracker backend) = true) := by
  constructor
  · intro h hm
    fin_cases hm <;>
      simp only [runHandler, ActionReportSymptom.run, ActionCreateHealthReport.run,
        ActionSendConnectionRequest.run, hauth, Bool.not_false, if_true] <;> decide
  · intro hmod h hm
    fin_cases hm <;>
      simp only [runHandler, ActionGetEcoPoints.run, ActionGetMyReports.run,
        ActionGetDailyMission.run, hauth, hmod, Bool.not_false, if_true,
        Bool.false_eq_true, if_false] <;> decide

/-- Witness for C3 (amended) at a concrete tokenless context with harmless
text: ReportSymptom and GetEcoPoints both produce exactly the needLogin
outcome. -/
theorem needLogin_short_circuit_witness :
    needLoginOnly (runHandler .reportSymptom c3CleanTracker failingBackend) = true
    ∧ needLoginOnly (runHandler .getEcoPoints c3CleanTracker failingBackend) = true :=
  ⟨(needLogin_short_circuit c3CleanTracker failingBackend (by decide)).1
      HandlerId.reportSymptom (by decide),
   (needLogin_short_circuit c3CleanTracker failingBackend (by decide)).2 (by decide)
      HandlerId.getEcoPoints (by decide)⟩

/-- Claim C4 (amended): every content-facing handler except the three
auth-gated creation flows and GeneralKnowledgeFallback short-circuits on a
disallowed word in the latest text to exactly the moderation warning plus a
revert event with no backend call; GeneralKnowledgeFallback instead
unconditionally emits the out-of-scope template with a revert event and no
backend call, performing no moderation check. -/
theorem moderation_short_circuit (tracker : Tracker) (backend : Backend) (t : Str)
    (htext : tracker.latest_text = some t)
    (hbad : contains_inappropriate t = true) :
    (∀ h ∈ [HandlerId.explainPollutant, .getEcoPoints, .getMyReports,
        .getDailyMission, .getLeaderboardTop, .healthEffects],
      runHandler h tracker backend = moderationOutcome)
    ∧ runHandler .generalKnowledgeFallback tracker backend =
        ⟨.ok ⟨[.template (pystr "utter_out_of_scope")], [.userUtteranceReverted]⟩, []⟩ := by
  have hne : t.isEmpty = false := by
    cases t with
    | nil => exact absurd hbad (by decide)
    | cons a l => rfl
  have hmod : moderationTriggered tracker = true := by
    simp [moderationTriggered, htext, hne, hbad]
  refine ⟨?_, rfl⟩
  intro h hm
  fin_cases hm <;>
    simp only [runHandler, ActionExplainPollutant.run, ActionGetEcoPoints.run,
      ActionGetMyReports.run, ActionGetDailyMission.run, ActionGetLeaderboardTop.run,
      ActionHealthEffects.run, hmod, if_true]

/-- Witness for C4 (amended) at a concrete context whose text contains the
word stupid: GetEcoPoints short-circuits to the moderation outcome. -/
theorem moderation_short_circuit_witness :
    runHandler .getEcoPoints c4WTracker failingBackend = moderationOutcome :=
  (moderation_short_circuit c4WTracker failingBackend (pystr "this is stupid") rfl
    (by decide)).1 HandlerId.getEcoPoints (by decide)

/-- Claim C10: when the profile fetch succeeds but the returned JSON object
lacks the ecoPoints key, GetEcoPoints reports a total of 0 in its success
message instead of failing. -/
theorem getEcoPoints_missing_key_defaults_zero (tracker : Tracker) (backend : Backend)
    (fields : List (Str × Json))
    (hmod : moderationTriggered tracker = false)
    (hauth : pyTruthy (get_auth_token tracker) = true)
    (hresp : backend ecoPointsCall = .ok (.jobj fields))
    (hkey : List.lookup (pystr "ecoPoints") fields = none) :
    runHandler .getEcoPoints tracker backend =
      ⟨.ok ⟨[.literal (pystr "You currently have 0 Eco-Points!")], []⟩, [ecoPointsCall]⟩ := by
  have hz : (Json.jnum 0).pyStr = pystr "0" := by
    simp only [Json.pyStr, Json.pyRepr]
    decide
  simp only [runHandler, ActionGetEcoPoints.run, hmod, hauth, hresp, Json.pyGetD,
    hkey, Option.getD, hz, Bool.not_true, Bool.false_eq_true, if_false]
  decide

/-- Witness for C10: a concrete authenticated context and a backend whose
profile response is the empty JSON object. -/
theorem getEcoPoints_missing_key_defaults_zero_witness :
    runHandler .getEcoPoints c10Tracker c10Backend =
      ⟨.ok ⟨[.literal (pystr "You currently have 0 Eco-Points!")], []⟩, [ecoPointsCall]⟩ :=
  getEcoPoints_missing_key_defaults_zero c10Tracker c10Backend [] (by decide) (by decide)
    rfl rfl

/-- Claim C9: when the user search succeeds with a non-empty match list
whose first match carries no id, SendConnectionRequest emits the ID-lookup
failure message and clears the connection_recipient slot without attempting
the connection-request POST. -/
theorem sendConnectionRequest_missing_id (tracker : Tracker) (backend : Backend)
    (username : Str) (fields : List (Str × Json)) (rest : List Json)
    (hauth : pyTruthy (get_auth_token tracker) = true)
    (hslot : tracker.slot_connection_recipient = some username)
    (hne : username.isEmpty = false)
    (hsearch : backend (searchCall username) = .ok (.jarr (.jobj fields :: rest)))
    (hid : List.lookup (pystr "id") fields = none) :
    runHandler .sendConnectionRequest tracker backend =
      ⟨.ok ⟨[.literal (pystr "Found the user, but couldn`t get their ID.")],
        [.slotSet (pystr "connection_recipient") none]⟩, [searchCall username]⟩ := by
  simp only [runHandler, ActionSendConnectionRequest.run, hauth, hslot]
  simp [pyTruthy, hne, hsearch, Json.truthy, Json.pyGetD, hid]

/-- Witness for C9: the search for bob returns one user object with no id
field; the handler stops after the search. -/
theorem sendConnectionRequest_missing_id_witness :
    runHandler .sendConnectionRequest c9Tracker c9Backend =
      ⟨.ok ⟨[.literal (pystr "Found the user, but couldn`t get their ID.")],
        [.slotSet (pystr "connection_recipient") none]⟩, [searchCall (pystr "bob")]⟩ :=
  sendConnectionRequest_missing_id c9Tracker c9Backend (pystr "bob") [] [] (by decide)
    rfl rfl rfl rfl

/-- Claim C5: in SendConnectionRequest the connection-request POST appears
in the call trace only when the user search already returned a truthy
(non-empty) match list, and a search that returns the empty array produces
the not-found message and a cleared connection_recipient slot with only the
search call in the trace, the POST never being attempted. -/
theorem sendConnectionRequest_post_only_after_match (tracker : Tracker)
    (backend : Backend) :
    (∀ c ∈ (runHandler .sendConnectionRequest tracker backend).calls,
      c.method = HttpMethod.post →
      ∃ username users, tracker.slot_connection_recipient = some username
        ∧ backend (searchCall username) = .ok users ∧ users.truthy = true)
    ∧ (∀ username : Str, pyTruthy (get_auth_token tracker) = true →
      tracker.slot_connection_recipient = some username →
      username.isEmpty = false →
      backend (searchCall username) = .ok (.jarr []) →
      runHandler .sendConnectionRequest tracker backend =
        ⟨.ok ⟨[.literal (pystr "Sorry, I couldn`t find a user named `" ++ username ++
          pystr "`. Please check the username.")],
          [.slotSet (pystr "connection_recipient") none]⟩, [searchCall username]⟩) := by
  constructor
  · intro c hc hpost
    cases hauth : pyTruthy (get_auth_token tracker) with
    | false =>
        simp only [runHandler, ActionSendConnectionRequest.run, hauth] at hc
        simp at hc
    | true =>
        cases hslot : tracker.slot_connection_recipient with
        | none =>
            simp only [runHandler, ActionSendConnectionRequest.run, hauth, hslot] at hc
            simp [pyTruthy] at hc
        | some username =>
            cases hne : username.isEmpty with
            | true =>
                simp only [runHandler, ActionSendConnectionRequest.run, hauth, hslot] at hc
                simp [pyTruthy, hne] at hc
            | false =>
                cases hb : backend (searchCall username) with
                | error e =>
                    simp only [runHandler, ActionSendConnectionRequest.run, hauth,
                      hslot] at hc
                    simp [pyTruthy, hne, hb] at hc
                    subst hc
                    simp [searchCall] at hpost
                | ok users =>
                    cases ht : users.truthy with
                    | false =>
                        simp only [runHandler, ActionSendConnectionRequest.run, hauth,
                          hslot] at hc
                        simp [pyTruthy, hne, hb, ht] at hc
                        subst hc
                        simp [searchCall] at hpost
                    | true =>
                        exact ⟨username, users, rfl, hb, ht⟩
  · intro username hauth hslot hne hsearch
    simp only [runHandler, ActionSendConnectionRequest.run, hauth, hslot]
    simp [pyTruthy, hne, hsearch, Json.truthy]

/-- Witness for C5: the search for alice returns the empty array; the
handler emits the not-found message, clears the slot, and its trace holds
only the search request. -/
theorem sendConnectionRequest_post_only_after_match_witness :
    runHandler .sendConnectionRequest c5Tracker c5Backend =
      ⟨.ok ⟨[.literal (pystr "Sorry, I couldn`t find a user named `" ++ pystr "alice" ++
        pystr "`. Please check the username.")],
        [.slotSet (pystr "connection_recipient") none]⟩, [searchCall (pystr "alice")]⟩ :=
  (sendConnectionRequest_post_only_after_match c5Tracker c5Backend).2 (pystr "alice")
    (by decide) rfl (by decide) rfl
